import Mathlib

/-!
# InventoryManagementCPP: the inventory service and its two retrieval strategies

A shallow embedding of `Product.h`, `InventoryManager.cpp` and the part of
`DatabaseManager.cpp` the service relies on.

* A C++ function that talks to the store becomes a function on a `Session`: the
  state of the store behind the connection, the statements sent so far and the
  lines written to `std::cerr`.
* `pqxx::work txn(conn); txn.exec...(...); txn.commit();` is one step `transact`
  of a `Connection`, which either yields a `Result` or throws (`Except.error`
  carrying `e.what()`).
* Every operation returns an `Except String _` outcome: `Except.ok` is a normal
  return, `Except.error` an exception leaving the function.  The `try` block of
  each operation is a definition of its own (`..._try`), the `catch` handler is
  the `error` branch of the operation.
* `int` is `Int`, `double` is `Rat` (a finite value the store keeps unchanged),
  `std::string` is `String`.
* The constructor of `DatabaseManager` runs on what the configuration file holds and on
  how the server answers a connection string; a `Startup` records the connection strings
  handed to `pqxx::connection` and the lines written to `std::cerr`.
-/

namespace Inventory

/-! ## Product.h -/

/-- The class `Product`: four public fields. -/
structure Product where
  productId : Int
  productName : String
  price : Rat
  quantity : Int
deriving DecidableEq, Repr

/-- The constructor `Product(id, name, price, quantity)`. -/
def Product.create (id : Int) (name : String) (price : Rat) (quantity : Int) : Product :=
  { productId := id, productName := name, price := price, quantity := quantity }

/-- The constructor `Product(name, price, quantity)`: the id is the sentinel `-1`. -/
def Product.createNew (name : String) (price : Rat) (quantity : Int) : Product :=
  { productId := -1, productName := name, price := price, quantity := quantity }

/-! ## The libpqxx interface used by the service -/

/-- A value bound to a statement parameter or held by a field of a result row. -/
inductive Value where
  | int (i : Int)
  | text (s : String)
  | real (q : Rat)
deriving DecidableEq, Repr

/-- A statement as handed to `exec` / `exec_params`: its text and the bound parameters. -/
structure Statement where
  text : String
  params : List Value
deriving DecidableEq, Repr

/-- What `pqxx::result` offers to the service: the rows and `affected_rows()`. -/
structure Result where
  rows : List (List Value)
  affected_rows : Nat
deriving DecidableEq, Repr

/-- The access `row[i]`: the field at a column index (a missing column is reported as an
exception). -/
def field (row : List Value) (i : Nat) : Except String Value :=
  match row.get? i with
  | some v => .ok v
  | none => .error "column index out of range"

/-- The conversion `.as<int>()` of a field. -/
def as_int : Value → Except String Int
  | .int i => .ok i
  | _ => .error "could not convert field to int"

/-- The conversion `.as<std::string>()` of a field. -/
def as_string : Value → Except String String
  | .text s => .ok s
  | _ => .error "could not convert field to string"

/-- The conversion `.as<double>()` of a field. -/
def as_double : Value → Except String Rat
  | .real q => .ok q
  | _ => .error "could not convert field to double"

/-- The connection held by `DatabaseManager`: one transaction with one statement, run against
the state `σ` of whatever is behind the connection.  It returns the result or throws, and
leaves a new state either way. -/
structure Connection (σ : Type) where
  exec : Statement → σ → Except String Result × σ

/-- The state an `InventoryManager` call runs in. -/
structure Session (σ : Type) where
  store : σ
  sent : List Statement
  cerr : List String

/-- A session that has sent nothing and printed nothing yet. -/
def Session.start {σ : Type} (s : σ) : Session σ :=
  { store := s, sent := [], cerr := [] }

/-- The output `std::cerr << line << std::endl`. -/
def Session.log {σ : Type} (line : String) (w : Session σ) : Session σ :=
  { w with cerr := w.cerr ++ [line] }

/-- One transaction of the service:
`pqxx::work txn(*dbManager.getConnection()); res = txn.exec...(stmt); txn.commit();`.
The statement is recorded as sent, whether it succeeds or not. -/
def transact {σ : Type} (c : Connection σ) (stmt : Statement) (w : Session σ) :
    Except String Result × Session σ :=
  let r := c.exec stmt w.store
  (r.1, { w with store := r.2, sent := w.sent ++ [stmt] })

/-! ## InventoryManager.cpp -/

/-- Statement text of `addProduct`. -/
def sqlInsert : String :=
  "INSERT INTO Products (product_name, price, quantity) VALUES ($1, $2, $3)"

/-- Statement text of `getProductById` and of the per-id fetch of `getAllProductsAlgorithm2`. -/
def sqlSelectById : String :=
  "SELECT product_id, product_name, price, quantity FROM Products WHERE product_id = $1"

/-- Statement text of `getAllProductsAlgorithm1`. -/
def sqlSelectAll : String :=
  "SELECT product_id, product_name, price, quantity FROM Products ORDER BY product_id"

/-- Statement text of the id enumeration of `getAllProductsAlgorithm2`. -/
def sqlSelectIds : String :=
  "SELECT product_id FROM Products"

/-- Statement text of `updateProduct`. -/
def sqlUpdate : String :=
  "UPDATE Products SET product_name = $1, price = $2, quantity = $3 WHERE product_id = $4"

/-- Statement text of `deleteProduct`. -/
def sqlDelete : String :=
  "DELETE FROM Products WHERE product_id = $1"

/-- The Product built from a result row:
`Product(row[0].as<int>(), row[1].as<std::string>(), row[2].as<double>(), row[3].as<int>())`. -/
def productOfRow (row : List Value) : Except String Product := do
  let id ← (field row 0).bind as_int
  let name ← (field row 1).bind as_string
  let price ← (field row 2).bind as_double
  let quantity ← (field row 3).bind as_int
  pure (Product.create id name price quantity)

/-- The `try` block of `addProduct`. -/
def addProduct_try {σ : Type} (c : Connection σ) (name : String) (price : Rat) (quantity : Int)
    (w : Session σ) : Except String Bool × Session σ :=
  match transact c ⟨sqlInsert, [.text name, .real price, .int quantity]⟩ w with
  | (.ok _, w1) => (.ok true, w1)
  | (.error e, w1) => (.error e, w1)

/-- The method `InventoryManager::addProduct`: the `try` block and its `catch` handler. -/
def addProduct {σ : Type} (c : Connection σ) (name : String) (price : Rat) (quantity : Int)
    (w : Session σ) : Except String Bool × Session σ :=
  match addProduct_try c name price quantity w with
  | (.ok b, w1) => (.ok b, w1)
  | (.error e, w1) => (.ok false, w1.log ("Error adding product: " ++ e))

/-- The `try` block of `getProductById`. -/
def getProductById_try {σ : Type} (c : Connection σ) (productId : Int) (w : Session σ) :
    Except String (Option Product) × Session σ :=
  match transact c ⟨sqlSelectById, [.int productId]⟩ w with
  | (.error e, w1) => (.error e, w1)
  | (.ok res, w1) =>
    match res.rows with
    | [] => (.ok none, w1)
    | row :: _ =>
      match productOfRow row with
      | .ok product => (.ok (some product), w1)
      | .error e => (.error e, w1)

/-- The method `InventoryManager::getProductById`: the `try` block and its `catch` handler. -/
def getProductById {σ : Type} (c : Connection σ) (productId : Int) (w : Session σ) :
    Except String (Option Product) × Session σ :=
  match getProductById_try c productId w with
  | (.ok r, w1) => (.ok r, w1)
  | (.error e, w1) => (.ok none, w1.log ("Error retrieving product: " ++ e))

/-- The loop `for (const auto& row : res) products.emplace_back(...)` of
`getAllProductsAlgorithm1`: the local `products` after the loop, and the exception that
ended it early, if any. -/
def emplaceRows : List (List Value) → List Product → Except String Unit × List Product
  | [], products => (.ok (), products)
  | row :: rest, products =>
    match productOfRow row with
    | .ok product => emplaceRows rest (products ++ [product])
    | .error e => (.error e, products)

/-- The `try` block of `getAllProductsAlgorithm1`, run on the local `products`. -/
def getAllProductsAlgorithm1_try {σ : Type} (c : Connection σ) (products : List Product)
    (w : Session σ) : Except String Unit × List Product × Session σ :=
  match transact c ⟨sqlSelectAll, []⟩ w with
  | (.error e, w1) => (.error e, products, w1)
  | (.ok res, w1) =>
    let r := emplaceRows res.rows products
    (r.1, r.2, w1)

/-- The method `InventoryManager::getAllProductsAlgorithm1`: the local `products` starts
empty, the `try` block runs, the `catch` handler logs, and `products` is returned. -/
def getAllProductsAlgorithm1 {σ : Type} (c : Connection σ) (w : Session σ) :
    Except String (List Product) × Session σ :=
  match getAllProductsAlgorithm1_try c [] w with
  | (.ok _, products, w1) => (.ok products, w1)
  | (.error e, products, w1) =>
    (.ok products, w1.log ("Error retrieving products (Algorithm 1): " ++ e))

/-- The loop `for (const auto& id_row : count_res)` of `getAllProductsAlgorithm2`. -/
def fetchEach {σ : Type} (c : Connection σ) :
    List (List Value) → List Product → Session σ → Except String Unit × List Product × Session σ
  | [], products, w => (.ok (), products, w)
  | id_row :: rest, products, w =>
    match (field id_row 0).bind as_int with
    | .error e => (.error e, products, w)
    | .ok current_id =>
      match transact c ⟨sqlSelectById, [.int current_id]⟩ w with
      | (.error e, w1) => (.error e, products, w1)
      | (.ok product_res, w1) =>
        match product_res.rows with
        | [] => fetchEach c rest products w1
        | row :: _ =>
          match productOfRow row with
          | .ok product => fetchEach c rest (products ++ [product]) w1
          | .error e => (.error e, products, w1)

/-- The `try` block of `getAllProductsAlgorithm2`, run on the local `products`. -/
def getAllProductsAlgorithm2_try {σ : Type} (c : Connection σ) (products : List Product)
    (w : Session σ) : Except String Unit × List Product × Session σ :=
  match transact c ⟨sqlSelectIds, []⟩ w with
  | (.error e, w1) => (.error e, products, w1)
  | (.ok count_res, w1) => fetchEach c count_res.rows products w1

/-- The method `InventoryManager::getAllProductsAlgorithm2`: the local `products` starts
empty, the `try` block runs, the `catch` handler logs, and `products` is returned. -/
def getAllProductsAlgorithm2 {σ : Type} (c : Connection σ) (w : Session σ) :
    Except String (List Product) × Session σ :=
  match getAllProductsAlgorithm2_try c [] w with
  | (.ok _, products, w1) => (.ok products, w1)
  | (.error e, products, w1) =>
    (.ok products, w1.log ("Error retrieving products (Algorithm 2): " ++ e))

/-- The `try` block of `updateProduct`. -/
def updateProduct_try {σ : Type} (c : Connection σ) (productId : Int) (name : String)
    (price : Rat) (quantity : Int) (w : Session σ) : Except String Bool × Session σ :=
  match transact c ⟨sqlUpdate, [.text name, .real price, .int quantity, .int productId]⟩ w with
  | (.ok res, w1) => (.ok (decide (res.affected_rows > 0)), w1)
  | (.error e, w1) => (.error e, w1)

/-- The method `InventoryManager::updateProduct`: the `try` block and its `catch` handler. -/
def updateProduct {σ : Type} (c : Connection σ) (productId : Int) (name : String)
    (price : Rat) (quantity : Int) (w : Session σ) : Except String Bool × Session σ :=
  match updateProduct_try c productId name price quantity w with
  | (.ok b, w1) => (.ok b, w1)
  | (.error e, w1) => (.ok false, w1.log ("Error updating product: " ++ e))

/-- The `try` block of `deleteProduct`. -/
def deleteProduct_try {σ : Type} (c : Connection σ) (productId : Int) (w : Session σ) :
    Except String Bool × Session σ :=
  match transact c ⟨sqlDelete, [.int productId]⟩ w with
  | (.ok res, w1) => (.ok (decide (res.affected_rows > 0)), w1)
  | (.error e, w1) => (.error e, w1)

/-- The method `InventoryManager::deleteProduct`: the `try` block and its `catch` handler. -/
def deleteProduct {σ : Type} (c : Connection σ) (productId : Int) (w : Session σ) :
    Except String Bool × Session σ :=
  match deleteProduct_try c productId w with
  | (.ok b, w1) => (.ok b, w1)
  | (.error e, w1) => (.ok false, w1.log ("Error deleting product: " ++ e))

/-! ## The relational store behind the connection -/

/-- Modelled from the spec: a row of the one persisted table, which the repository only reaches
through SQL (the schema is not under src/): columns `product_id` (identity), `product_name`
(text), `price` (decimal), `quantity` (integer). -/
structure Row where
  product_id : Int
  product_name : String
  price : Rat
  quantity : Int
deriving DecidableEq, Repr

/-- Modelled from the spec: the state of the table `Products`, which is kept by the store and
not by code under src/: its rows in the order a scan without `ORDER BY` meets them, and the
next value of the identity column. -/
structure Table where
  rows : List Row
  next_id : Int
deriving DecidableEq, Repr

/-- The four fields of a row as a result row of `SELECT product_id, product_name, price,
quantity`. -/
def Row.values (r : Row) : List Value :=
  [.int r.product_id, .text r.product_name, .real r.price, .int r.quantity]

/-- The Product that carries the four field values of a row. -/
def Row.toProduct (r : Row) : Product :=
  { productId := r.product_id, productName := r.product_name, price := r.price,
    quantity := r.quantity }

/-- Modelled from the spec: `ORDER BY product_id`, a stable sort of the stored rows by ascending
id (done by the store, not by code under src/). -/
def orderByProductId (rows : List Row) : List Row :=
  rows.insertionSort (fun a b => a.product_id ≤ b.product_id)

/-- Modelled from the spec: `WHERE product_id = $1` (evaluated by the store). -/
def whereProductId (id : Int) (rows : List Row) : List Row :=
  rows.filter (fun r => decide (r.product_id = id))

/-- Modelled from the spec: the store's execution of one statement in its own committed
transaction (section 4.1: rows for a read, the affected-row count for a write, a single
error condition otherwise), for the six statement texts the service sends.  The store and its
schema are not under src/.  An insert takes the next identity value and is refused when that
id is already taken (ids are unique); an update overwrites the matching rows in place; a
delete removes them; a read of ids without `ORDER BY` follows the stored order.  Bound values
are stored and read back unchanged, and a refused statement leaves the table as it was. -/
def Table.execute (stmt : Statement) (t : Table) : Except String Result × Table :=
  if stmt.text = sqlInsert then
    match stmt.params with
    | [.text name, .real price, .int quantity] =>
      if t.rows.any (fun r => decide (r.product_id = t.next_id)) then
        (.error "duplicate key value violates unique constraint", t)
      else
        (.ok ⟨[], 1⟩,
          { rows := t.rows ++ [⟨t.next_id, name, price, quantity⟩], next_id := t.next_id + 1 })
    | _ => (.error "wrong parameters for INSERT", t)
  else if stmt.text = sqlSelectById then
    match stmt.params with
    | [.int id] =>
      let found := whereProductId id t.rows
      (.ok ⟨found.map Row.values, found.length⟩, t)
    | _ => (.error "wrong parameters for SELECT", t)
  else if stmt.text = sqlSelectAll then
    match stmt.params with
    | [] => (.ok ⟨(orderByProductId t.rows).map Row.values, t.rows.length⟩, t)
    | _ => (.error "wrong parameters for SELECT", t)
  else if stmt.text = sqlSelectIds then
    match stmt.params with
    | [] => (.ok ⟨t.rows.map (fun r => [.int r.product_id]), t.rows.length⟩, t)
    | _ => (.error "wrong parameters for SELECT", t)
  else if stmt.text = sqlUpdate then
    match stmt.params with
    | [.text name, .real price, .int quantity, .int id] =>
      (.ok ⟨[], (whereProductId id t.rows).length⟩,
        { t with rows := t.rows.map (fun r =>
            if r.product_id = id then ⟨id, name, price, quantity⟩ else r) })
    | _ => (.error "wrong parameters for UPDATE", t)
  else if stmt.text = sqlDelete then
    match stmt.params with
    | [.int id] =>
      (.ok ⟨[], (whereProductId id t.rows).length⟩,
        { t with rows := t.rows.filter (fun r => decide (r.product_id ≠ id)) })
    | _ => (.error "wrong parameters for DELETE", t)
  else
    (.error "syntax error", t)

/-- The connection to a store that holds the table and meets no failure of its own. -/
def store : Connection Table :=
  { exec := Table.execute }

/-! ## Vocabulary of the statements about the service -/

/-- The per-id read statement for one id. -/
def fetchOf (id : Int) : Statement :=
  ⟨sqlSelectById, [.int id]⟩

/-- The result row the id enumeration yields for one id. -/
def idRow (id : Int) : List Value :=
  [.int id]

/-- A result holding the given rows of the table, with the given affected-row count. -/
def resultOf (found : List Row × Nat) : Result :=
  ⟨found.1.map Row.values, found.2⟩

/-- What a connection answers to a run of statements sent one after the other. -/
def replies {σ : Type} (c : Connection σ) : List Statement → σ → List (Except String Result)
  | [], _ => []
  | stmt :: rest, s => (c.exec stmt s).1 :: replies c rest (c.exec stmt s).2

/-- The state behind a connection after a run of statements. -/
def stateAfter {σ : Type} (c : Connection σ) : List Statement → σ → σ
  | [], s => s
  | stmt :: rest, s => stateAfter c rest (c.exec stmt s).2

/-- The row (1, Widget, 9.99, 10). -/
def widget : Row := ⟨1, "Widget", 999 / 100, 10⟩

/-- The row (2, Gadget, 19.95, 3). -/
def gadget : Row := ⟨2, "Gadget", 1995 / 100, 3⟩

/-- Modelled from the spec: a store that other clients change too (the concurrent external
delete of section 8, scenario 6; those clients are not code under src/).  Before each coming
statement of this connection the next pending change of the others, if any, is applied. -/
def shared {σ : Type} (c : Connection σ) : Connection (σ × List (σ → σ)) :=
  { exec := fun stmt s =>
      match s.2 with
      | [] =>
        let r := c.exec stmt s.1
        (r.1, (r.2, []))
      | change :: later =>
        let r := c.exec stmt (change s.1)
        (r.1, (r.2, later)) }

/-- Modelled from the spec: a store whose statements can fail (section 4.1: an execution
failure aborts the transaction and surfaces StorageFailure; the cause lies outside src/).
For each coming statement a flag tells whether it fails; a failed statement leaves the state
behind the connection as it was. -/
def failing {σ : Type} (c : Connection σ) : Connection (σ × List Bool) :=
  { exec := fun stmt s =>
      match s.2 with
      | [] =>
        let r := c.exec stmt s.1
        (r.1, (r.2, []))
      | false :: later =>
        let r := c.exec stmt s.1
        (r.1, (r.2, later))
      | true :: later => (.error "server closed the connection unexpectedly", (s.1, later)) }

/-- Another client's `DELETE FROM Products WHERE product_id = id`. -/
def externalDelete (id : Int) (t : Table) : Table :=
  (Table.execute ⟨sqlDelete, [.int id]⟩ t).2

/-- The row (3, Gizmo, 4.25, 7). -/
def gizmo : Row := ⟨3, "Gizmo", 425 / 100, 7⟩

/-! ## DatabaseManager.cpp -/

/-- The `std::map<std::string, std::string>` of configuration entries, as a list of key and
value pairs in which a key is looked up from the front. -/
abbrev Config := List (String × String)

/-- The member `config.count(key)`: 1 when the map has the key, 0 otherwise. -/
def Config.count (config : Config) (key : String) : Nat :=
  match config.lookup key with
  | some _ => 1
  | none => 0

/-- The member `config.at(key)`: the value of the key, or `std::out_of_range` thrown. -/
def Config.atKey (config : Config) (key : String) : Except String String :=
  match config.lookup key with
  | some value => .ok value
  | none => .error "map::at"

/-- The assignment `config[key] = value`: the entry of the key is created or overwritten. -/
def Config.assign (config : Config) (key value : String) : Config :=
  (key, value) :: config.filter (fun entry => decide (entry.1 ≠ key))

/-- The characters of `const std::string whitespace = " \t\n\r\f\v"`. -/
def whitespace : List Char := [' ', '\t', '\n', '\r', '\x0c', '\x0b']

/-- The helper `DatabaseManager::trim`: the string from its first to its last character that is
not whitespace, empty when there is none. -/
def trim (str : String) : String :=
  let fromStart := str.data.dropWhile (fun ch => decide (ch ∈ whitespace))
  ⟨(fromStart.reverse.dropWhile (fun ch => decide (ch ∈ whitespace))).reverse⟩

/-- The lines that successive `std::getline(configFile, line)` calls extract from the rest of
the file, `current` holding the characters read so far of the line in progress, last first.
At the end of the file a line in progress is delivered when it has a character. -/
def getlines : List Char → List Char → List String
  | [], current => if current = [] then [] else [⟨current.reverse⟩]
  | ch :: rest, current =>
    if ch = '\n' then ⟨current.reverse⟩ :: getlines rest [] else getlines rest (ch :: current)

/-- The body of the `while` loop of `loadConfig` for one line: blank lines and lines starting
with `#` or `;` are skipped; `std::getline(iss, key, '=') && std::getline(iss, value)`
succeeds when an `=` is found with at least one character after it. -/
def loadLine (config : Config) (read : String) : Config :=
  let line := trim read
  match line.data with
  | [] => config
  | first :: _ =>
    if first = '#' ∨ first = ';' then config
    else
      let key := line.data.takeWhile (fun ch => decide (ch ≠ '='))
      match line.data.dropWhile (fun ch => decide (ch ≠ '=')) with
      | [] => config
      | [_] => config
      | _ :: value => config.assign (trim ⟨key⟩) (trim ⟨value⟩)

/-- The helper `DatabaseManager::loadConfig`, given what the file holds (`none` when it cannot
be opened). -/
def loadConfig (filename : String) (file : Option String) : Except String Config :=
  match file with
  | none => .error ("Failed to open configuration file: " ++ filename)
  | some content => .ok ((getlines content.data []).foldl loadLine [])

/-- One line of `buildConnectionString`:
`if (config.count(key)) connStr += label + config.at(key) + " ";` -/
def appendEntry (config : Config) (key label connStr : String) : Except String String :=
  if config.count key ≠ 0 then
    match config.atKey key with
    | .ok value => .ok (connStr ++ (label ++ value ++ " "))
    | .error e => .error e
  else .ok connStr

/-- The removal of the trailing space:
`if (!connStr.empty() && connStr.back() == ' ') connStr.pop_back();` -/
def dropTrailingSpace (connStr : String) : String :=
  if connStr.data.getLast? = some ' ' then ⟨connStr.data.dropLast⟩ else connStr

/-- The helper `DatabaseManager::buildConnectionString`. -/
def buildConnectionString (config : Config) : Except String String := do
  let connStr := ""
  let connStr ← appendEntry config "dbname" "dbname=" connStr
  let connStr ← appendEntry config "user" "user=" connStr
  let connStr ← appendEntry config "password" "password=" connStr
  let connStr ← appendEntry config "host" "host=" connStr
  let connStr ← appendEntry config "port" "port=" connStr
  pure (dropTrailingSpace connStr)

/-- What the start of the process has done so far: the connection strings handed to
`pqxx::connection` and the lines written to `std::cerr`. -/
structure Startup where
  attempts : List String
  cerr : List String
deriving DecidableEq, Repr

/-- The `try` block of the constructor `DatabaseManager::DatabaseManager`.  What the file
holds and how the server answers are given: `connect` tells for a connection string whether
`pqxx::connection` throws, and otherwise what `is_open()` answers.  The value built is the
connection string of the open connection. -/
def DatabaseManager_try (configFilePath : String) (file : Option String)
    (connect : String → Except String Bool) (u : Startup) : Except String String × Startup :=
  match loadConfig configFilePath file with
  | .error e => (.error e, u)
  | .ok config =>
    match buildConnectionString config with
    | .error e => (.error e, u)
    | .ok connectionString =>
      if connectionString = "" then
        (.error "Failed to build connection string from config.", u)
      else
        let u1 := { u with attempts := u.attempts ++ [connectionString] }
        match connect connectionString with
        | .error e => (.error e, u1)
        | .ok isOpen =>
          if isOpen then (.ok connectionString, u1)
          else (.error "Failed to open database connection using config.", u1)

/-- The constructor `DatabaseManager::DatabaseManager`: the `try` block, and the `catch`
handler that logs and rethrows. -/
def DatabaseManager (configFilePath : String) (file : Option String)
    (connect : String → Except String Bool) (u : Startup) : Except String String × Startup :=
  match DatabaseManager_try configFilePath file connect u with
  | (.ok conn, u1) => (.ok conn, u1)
  | (.error e, u1) =>
    (.error e, { u1 with cerr := u1.cerr ++ ["Database initialization error: " ++ e] })

/-- The five keys `buildConnectionString` looks for. -/
def connectionKeys : List String := ["dbname", "user", "password", "host", "port"]

/-! ## Lemmas on the embedding -/

theorem productOfRow_values (r : Row) : productOfRow r.values = .ok r.toProduct := rfl

theorem emplaceRows_values (rs : List Row) (products : List Product) :
    emplaceRows (rs.map Row.values) products = (.ok (), products ++ rs.map Row.toProduct) := by
  induction rs generalizing products with
  | nil => simp [emplaceRows]
  | cons r rs ih => simp [emplaceRows, productOfRow_values, ih]

theorem execute_selectAll (t : Table) :
    Table.execute ⟨sqlSelectAll, []⟩ t
      = (.ok ⟨(orderByProductId t.rows).map Row.values, t.rows.length⟩, t) := rfl

theorem execute_selectIds (t : Table) :
    Table.execute ⟨sqlSelectIds, []⟩ t
      = (.ok ⟨t.rows.map (fun r => idRow r.product_id), t.rows.length⟩, t) := rfl

theorem execute_fetchOf (id : Int) (t : Table) :
    Table.execute (fetchOf id) t
      = (.ok (resultOf (whereProductId id t.rows, (whereProductId id t.rows).length)), t) := rfl

theorem execute_insert (name : String) (price : Rat) (quantity : Int) (t : Table) :
    Table.execute ⟨sqlInsert, [.text name, .real price, .int quantity]⟩ t
      = if t.rows.any (fun r => decide (r.product_id = t.next_id)) then
          (.error "duplicate key value violates unique constraint", t)
        else
          (.ok ⟨[], 1⟩,
            { rows := t.rows ++ [⟨t.next_id, name, price, quantity⟩],
              next_id := t.next_id + 1 }) := rfl

theorem execute_update (id : Int) (name : String) (price : Rat) (quantity : Int) (t : Table) :
    Table.execute ⟨sqlUpdate, [.text name, .real price, .int quantity, .int id]⟩ t
      = (.ok ⟨[], (whereProductId id t.rows).length⟩,
          { t with rows := t.rows.map (fun r =>
              if r.product_id = id then ⟨id, name, price, quantity⟩ else r) }) := rfl

theorem execute_delete (id : Int) (t : Table) :
    Table.execute ⟨sqlDelete, [.int id]⟩ t
      = (.ok ⟨[], (whereProductId id t.rows).length⟩,
          { t with rows := t.rows.filter (fun r => decide (r.product_id ≠ id)) }) := rfl

theorem algorithm1_store (w : Session Table) :
    getAllProductsAlgorithm1 store w
      = (.ok ((orderByProductId w.store.rows).map Row.toProduct),
          { w with sent := w.sent ++ [⟨sqlSelectAll, []⟩] }) := by
  simp [getAllProductsAlgorithm1, getAllProductsAlgorithm1_try, transact, store,
    execute_selectAll, emplaceRows_values]

theorem fetchEach_replies {σ : Type} (c : Connection σ) (ids : List Int) :
    ∀ (found : List (List Row × Nat)) (products : List Product) (w : Session σ),
      replies c (ids.map fetchOf) w.store = found.map (fun f => .ok (resultOf f)) →
      fetchEach c (ids.map idRow) products w
        = (.ok (), products ++ (found.filterMap (fun f => f.1.head?)).map Row.toProduct,
            { store := stateAfter c (ids.map fetchOf) w.store,
              sent := w.sent ++ ids.map fetchOf, cerr := w.cerr }) := by
  induction ids with
  | nil =>
    intro found products w h
    cases found with
    | nil => simp [fetchEach, stateAfter]
    | cons f fs => simp [replies] at h
  | cons i is ih =>
    intro found products w h
    cases found with
    | nil => simp [replies] at h
    | cons f fs =>
      simp only [List.map_cons, replies, List.cons.injEq] at h
      obtain ⟨h1, h2⟩ := h
      have hi : (field (idRow i) 0).bind as_int = .ok i := rfl
      simp only [List.map_cons, fetchEach, hi, transact]
      have hf : fetchOf i = ⟨sqlSelectById, [.int i]⟩ := rfl
      rw [← hf, h1]
      obtain ⟨rs, n⟩ := f
      cases rs with
      | nil =>
        simp only [resultOf, List.map_nil]
        rw [ih fs products _ h2]
        simp [stateAfter]
      | cons r rs =>
        simp only [resultOf, List.map_cons, productOfRow_values]
        rw [ih fs (products ++ [r.toProduct]) _ h2]
        simp [stateAfter]


theorem replies_store_fetch (t : Table) (ids : List Int) :
    replies store (ids.map fetchOf) t
      = (ids.map (fun i => (whereProductId i t.rows, (whereProductId i t.rows).length))).map
          (fun f => .ok (resultOf f)) := by
  induction ids with
  | nil => rfl
  | cons i is ih => simp [replies, store, execute_fetchOf] at ih ⊢; exact ih

theorem stateAfter_store_fetch (t : Table) (ids : List Int) :
    stateAfter store (ids.map fetchOf) t = t := by
  induction ids with
  | nil => rfl
  | cons i is ih => simp [stateAfter, store, execute_fetchOf] at ih ⊢; exact ih

theorem algorithm2_store (w : Session Table) :
    getAllProductsAlgorithm2 store w
      = (.ok ((w.store.rows.filterMap
            (fun r => (whereProductId r.product_id w.store.rows).head?)).map Row.toProduct),
          { w with sent := w.sent ++ ⟨sqlSelectIds, []⟩ ::
              w.store.rows.map (fun r => fetchOf r.product_id) }) := by
  have hrows : w.store.rows.map (fun r => idRow r.product_id)
      = (w.store.rows.map Row.product_id).map idRow := by simp
  have h := fetchEach_replies store (w.store.rows.map Row.product_id) _ []
    { w with sent := w.sent ++ [⟨sqlSelectIds, []⟩] }
    (replies_store_fetch w.store (w.store.rows.map Row.product_id))
  simp only [getAllProductsAlgorithm2, getAllProductsAlgorithm2_try, transact, store,
    execute_selectIds, hrows]
  simp only [store] at h
  rw [h]
  have h2 := stateAfter_store_fetch w.store (w.store.rows.map Row.product_id)
  simp only [store] at h2
  simp only [List.map_map, Function.comp_def] at h2
  simp [h2, List.filterMap_map, Function.comp_def]

theorem whereProductId_of_mem {rows : List Row} (huniq : (rows.map Row.product_id).Nodup)
    {r : Row} (hr : r ∈ rows) : whereProductId r.product_id rows = [r] := by
  induction rows with
  | nil => simp at hr
  | cons a l ih =>
    simp only [List.map_cons, List.nodup_cons, List.mem_map, not_exists, not_and] at huniq
    obtain ⟨ha, hl⟩ := huniq
    rcases List.mem_cons.mp hr with rfl | hmem
    · have : whereProductId r.product_id l = [] := by
        simp only [whereProductId, List.filter_eq_nil_iff, decide_eq_true_eq]
        intro b hb hEq
        exact ha b hb hEq
      simp [whereProductId] at this ⊢
      exact this
    · have hne : a.product_id ≠ r.product_id := fun hEq => ha r hmem hEq.symm
      have := ih hl hmem
      simp [whereProductId, hne] at this ⊢
      exact this

theorem filterMap_where_of_nodup {rows : List Row} (huniq : (rows.map Row.product_id).Nodup) :
    rows.filterMap (fun r => (whereProductId r.product_id rows).head?) = rows := by
  have : ∀ l : List Row, (∀ r ∈ l, r ∈ rows) →
      l.filterMap (fun r => (whereProductId r.product_id rows).head?) = l := by
    intro l
    induction l with
    | nil => intro _; rfl
    | cons a l ih =>
      intro h
      have ha := whereProductId_of_mem huniq (h a (List.mem_cons_self _ _))
      simp [ha, ih (fun r hr => h r (List.mem_cons_of_mem _ hr))]
  exact this rows (fun _ h => h)

theorem orderByProductId_perm (rows : List Row) : (orderByProductId rows).Perm rows :=
  List.perm_insertionSort _ rows

theorem orderByProductId_sorted (rows : List Row) :
    (orderByProductId rows).Pairwise (fun a b => a.product_id ≤ b.product_id) := by
  haveI : IsTotal Row (fun a b => a.product_id ≤ b.product_id) := ⟨fun a b => le_total _ _⟩
  haveI : IsTrans Row (fun a b => a.product_id ≤ b.product_id) := ⟨fun _ _ _ => le_trans⟩
  exact List.sorted_insertionSort _ rows

theorem orderByProductId_ascending {rows : List Row}
    (huniq : (rows.map Row.product_id).Nodup) :
    (orderByProductId rows).Pairwise (fun a b => a.product_id < b.product_id) := by
  have hnd : ((orderByProductId rows).map Row.product_id).Nodup :=
    ((orderByProductId_perm rows).map Row.product_id).nodup_iff.mpr huniq
  have hne : (orderByProductId rows).Pairwise (fun a b => a.product_id ≠ b.product_id) :=
    List.pairwise_map.mp hnd
  exact ((orderByProductId_sorted rows).and hne).imp (fun h => lt_of_le_of_ne h.1 h.2)

theorem orderByProductId_of_ascending {rows : List Row}
    (hasc : rows.Pairwise (fun a b => a.product_id < b.product_id)) :
    orderByProductId rows = rows :=
  List.Sorted.insertionSort_eq (hasc.imp (fun h => le_of_lt h))

theorem nodup_of_ascending {rows : List Row}
    (hasc : rows.Pairwise (fun a b => a.product_id < b.product_id)) :
    (rows.map Row.product_id).Nodup :=
  List.pairwise_map.mpr (hasc.imp (fun h => ne_of_lt h))

/-- On a table whose stored order is ascending by id, and a store that meets no failure, the
two strategies return the same sequence. -/
theorem algorithms_agree_of_ascending (w : Session Table)
    (hasc : w.store.rows.Pairwise (fun a b => a.product_id < b.product_id)) :
    (getAllProductsAlgorithm1 store w).1 = (getAllProductsAlgorithm2 store w).1 := by
  rw [algorithm1_store, algorithm2_store, orderByProductId_of_ascending hasc,
    filterMap_where_of_nodup (nodup_of_ascending hasc)]

/-- On a table with unique ids, and a store that meets no failure, the two strategies return
the same Products, possibly in a different order. -/
theorem algorithms_agree_up_to_order (w : Session Table)
    (huniq : (w.store.rows.map Row.product_id).Nodup) :
    ∃ p1 p2, (getAllProductsAlgorithm1 store w).1 = .ok p1 ∧
      (getAllProductsAlgorithm2 store w).1 = .ok p2 ∧ p1.Perm p2 := by
  refine ⟨_, _, by rw [algorithm1_store], by rw [algorithm2_store], ?_⟩
  rw [filterMap_where_of_nodup huniq]
  exact (orderByProductId_perm _).map _

/-- C1: the table stored as (2, Gadget, 19.95, 3), (1, Widget, 9.99, 10) has unique ids, does
not change and meets no failure, yet getAllProductsAlgorithm1 returns Widget then Gadget while
getAllProductsAlgorithm2, whose id enumeration has no ORDER BY, returns Gadget then Widget:
the two sequences differ and the second is not ascending by id. -/
theorem algorithm2_follows_stored_order :
    (getAllProductsAlgorithm1 store (Session.start ⟨[gadget, widget], 3⟩)).1
      = .ok [widget.toProduct, gadget.toProduct] ∧
    (getAllProductsAlgorithm2 store (Session.start ⟨[gadget, widget], 3⟩)).1
      = .ok [gadget.toProduct, widget.toProduct] ∧
    (getAllProductsAlgorithm1 store (Session.start ⟨[gadget, widget], 3⟩)).1
      ≠ (getAllProductsAlgorithm2 store (Session.start ⟨[gadget, widget], 3⟩)).1 ∧
    (getAllProductsAlgorithm1 store (Session.start ⟨[gadget, widget], 3⟩)).2.store
      = ⟨[gadget, widget], 3⟩ ∧
    (getAllProductsAlgorithm2 store (Session.start ⟨[gadget, widget], 3⟩)).2.store
      = ⟨[gadget, widget], 3⟩ ∧
    ([gadget, widget].map Row.product_id).Nodup := by
  refine ⟨rfl, rfl, ?_, rfl, rfl, by decide⟩
  rw [algorithm1_store, algorithm2_store]
  simp [Session.start, orderByProductId, whereProductId, widget, gadget, Row.toProduct]

/-- C2: on a table with unique ids and a store that meets no failure,
getAllProductsAlgorithm1 returns normally, without a diagnostic, one Product per table row
with that row's four field values (a permutation of the rows read as Products), in strictly
ascending order of id.  The empty table gives the empty sequence, and the table holding
(1, Widget, 9.99, 10) and (2, Gadget, 19.95, 3), in either stored order or as left by the two
inserts into an empty table, gives these two Products in this order. -/
theorem algorithm1_one_product_per_row_ascending (w : Session Table)
    (huniq : (w.store.rows.map Row.product_id).Nodup) :
    (∃ products, (getAllProductsAlgorithm1 store w).1 = .ok products ∧
      products.Perm (w.store.rows.map Row.toProduct) ∧
      products.Pairwise (fun p q => p.productId < q.productId)) ∧
    (getAllProductsAlgorithm1 store w).2.cerr = w.cerr ∧
    (∀ n, (getAllProductsAlgorithm1 store (Session.start ⟨[], n⟩)).1 = .ok []) ∧
    (∀ n, (getAllProductsAlgorithm1 store (Session.start ⟨[widget, gadget], n⟩)).1
      = .ok [⟨1, "Widget", 999 / 100, 10⟩, ⟨2, "Gadget", 1995 / 100, 3⟩]) ∧
    (∀ n, (getAllProductsAlgorithm1 store (Session.start ⟨[gadget, widget], n⟩)).1
      = .ok [⟨1, "Widget", 999 / 100, 10⟩, ⟨2, "Gadget", 1995 / 100, 3⟩]) ∧
    (getAllProductsAlgorithm1 store
        (addProduct store "Gadget" (1995 / 100) 3
          (addProduct store "Widget" (999 / 100) 10 (Session.start ⟨[], 1⟩)).2).2).1
      = .ok [⟨1, "Widget", 999 / 100, 10⟩, ⟨2, "Gadget", 1995 / 100, 3⟩] := by
  refine ⟨⟨_, by rw [algorithm1_store], (orderByProductId_perm _).map _, ?_⟩, ?_,
    fun _ => rfl, fun _ => rfl, fun _ => rfl, rfl⟩
  · exact List.pairwise_map.mpr (orderByProductId_ascending huniq)
  · rw [algorithm1_store]

theorem algorithm1_one_product_per_row_ascending_witness :
    (([widget, gadget].map Row.product_id).Nodup) ∧
    (∃ products, (getAllProductsAlgorithm1 store (Session.start ⟨[widget, gadget], 3⟩)).1
        = .ok products ∧
      products.Perm ([widget, gadget].map Row.toProduct) ∧
      products.Pairwise (fun p q => p.productId < q.productId)) :=
  ⟨by decide, (algorithm1_one_product_per_row_ascending
    (Session.start ⟨[widget, gadget], 3⟩) (by decide)).1⟩

theorem fetchEach_replies_error {σ : Type} (c : Connection σ) (e : String) (ids : List Int) :
    ∀ (found : List (List Row × Nat)) (products : List Product) (w : Session σ),
      found.length < ids.length →
      replies c ((ids.take (found.length + 1)).map fetchOf) w.store
        = found.map (fun f => .ok (resultOf f)) ++ [.error e] →
      fetchEach c (ids.map idRow) products w
        = (.error e, products ++ (found.filterMap (fun f => f.1.head?)).map Row.toProduct,
            { store := stateAfter c ((ids.take (found.length + 1)).map fetchOf) w.store,
              sent := w.sent ++ (ids.take (found.length + 1)).map fetchOf, cerr := w.cerr }) := by
  induction ids with
  | nil => intro found products w hk; simp at hk
  | cons i is ih =>
    intro found products w hk h
    have hi : (field (idRow i) 0).bind as_int = .ok i := rfl
    have hf : fetchOf i = ⟨sqlSelectById, [.int i]⟩ := rfl
    cases found with
    | nil =>
      simp only [List.length_nil, zero_add, List.take_succ_cons, List.take_zero, List.map_cons,
        List.map_nil, replies, List.nil_append, List.cons.injEq, and_true] at h
      simp only [List.map_cons, fetchEach, hi, transact]
      rw [← hf, h]
      simp [stateAfter]
    | cons f fs =>
      simp only [List.length_cons, List.take_succ_cons, List.map_cons, replies,
        List.cons_append, List.cons.injEq] at h
      obtain ⟨h1, h2⟩ := h
      have hk2 : fs.length < is.length := by simpa using hk
      simp only [List.map_cons, fetchEach, hi, transact]
      rw [← hf, h1]
      obtain ⟨rs, n⟩ := f
      cases rs with
      | nil =>
        simp only [resultOf, List.map_nil]
        rw [ih fs products _ hk2 h2]
        simp [stateAfter]
      | cons r rs =>
        simp only [resultOf, List.map_cons, productOfRow_values]
        rw [ih fs (products ++ [r.toProduct]) _ hk2 h2]
        simp [stateAfter]

/-- C3: whenever the id enumeration of getAllProductsAlgorithm2 returns the ids `ids` and the
per-id fetches that follow return, without failure, the rows `found` (for each id in turn the
rows its fetch returned, possibly none), the call returns normally, with no diagnostic, after
sending the enumeration and one fetch for every id, and its result holds exactly the Products
of the ids whose fetch returned a row, in enumeration order.  With ids 1, 2, 3 enumerated and
row 2 deleted by another client before its fetch, the result has length 2 and holds the
Products of ids 1 and 3. -/
theorem algorithm2_skips_ids_without_row {σ : Type} (c : Connection σ) (w : Session σ)
    (ids : List Int) (n : Nat) (found : List (List Row × Nat))
    (hreplies : replies c (⟨sqlSelectIds, []⟩ :: ids.map fetchOf) w.store
      = .ok ⟨ids.map idRow, n⟩ :: found.map (fun f => .ok (resultOf f))) :
    ((getAllProductsAlgorithm2 c w).1
        = .ok ((found.filterMap (fun f => f.1.head?)).map Row.toProduct) ∧
      (getAllProductsAlgorithm2 c w).2.sent = w.sent ++ ⟨sqlSelectIds, []⟩ :: ids.map fetchOf ∧
      (getAllProductsAlgorithm2 c w).2.cerr = w.cerr) ∧
    ((getAllProductsAlgorithm2 (shared store)
        (Session.start (⟨[widget, gadget, gizmo], 4⟩, [id, id, externalDelete 2]))).1
      = .ok [widget.toProduct, gizmo.toProduct]) ∧
    [widget.toProduct, gizmo.toProduct].length = 2 ∧
    [widget.toProduct, gizmo.toProduct].map Product.productId = [1, 3] := by
  refine ⟨?_, rfl, rfl, rfl⟩
  simp only [replies, List.cons.injEq] at hreplies
  obtain ⟨h1, h2⟩ := hreplies
  have h := fetchEach_replies c ids found []
    { store := (c.exec ⟨sqlSelectIds, []⟩ w.store).2,
      sent := w.sent ++ [⟨sqlSelectIds, []⟩], cerr := w.cerr } h2
  simp only [getAllProductsAlgorithm2, getAllProductsAlgorithm2_try, transact, h1, h]
  simp

theorem algorithm2_skips_ids_without_row_witness :
    replies (shared store) (⟨sqlSelectIds, []⟩ :: [1, 2, 3].map fetchOf)
        (Session.start (⟨[widget, gadget, gizmo], 4⟩, [id, id, externalDelete 2])).store
      = .ok ⟨[1, 2, 3].map idRow, 3⟩ ::
          [([widget], 1), ([], 0), ([gizmo], 1)].map (fun f => .ok (resultOf f)) ∧
    (getAllProductsAlgorithm2 (shared store)
        (Session.start (⟨[widget, gadget, gizmo], 4⟩, [id, id, externalDelete 2]))).1
      = .ok [widget.toProduct, gizmo.toProduct] :=
  ⟨rfl, (algorithm2_skips_ids_without_row (shared store)
    (Session.start (⟨[widget, gadget, gizmo], 4⟩, [id, id, externalDelete 2]))
    [1, 2, 3] 3 [([widget], 1), ([], 0), ([gizmo], 1)] rfl).1.1⟩

/-- C4: a retrieval strategy whose statement fails returns normally with what it had
accumulated.  When the id enumeration of getAllProductsAlgorithm2 returns `ids`, the first
k-1 per-id fetches return the rows `found` and the k-th fetch fails with `e` (k is
`found.length + 1`), the call returns exactly the Products appended from the first k-1 ids,
sends no further statement and logs the failure; when the id enumeration itself fails the
call returns the empty sequence; and getAllProductsAlgorithm1 whose single statement fails
returns the empty sequence. -/
theorem retrieval_returns_accumulated_on_failure {σ σ2 σ1 : Type}
    (c : Connection σ) (w : Session σ) (ids : List Int) (n : Nat)
    (found : List (List Row × Nat)) (e : String)
    (hk : found.length < ids.length)
    (hreplies : replies c (⟨sqlSelectIds, []⟩ :: (ids.take (found.length + 1)).map fetchOf)
        w.store
      = .ok ⟨ids.map idRow, n⟩ :: (found.map (fun f => .ok (resultOf f)) ++ [.error e]))
    (c2 : Connection σ2) (w2 : Session σ2) (e2 : String)
    (henum : (c2.exec ⟨sqlSelectIds, []⟩ w2.store).1 = .error e2)
    (c1 : Connection σ1) (w1 : Session σ1) (e1 : String)
    (hall : (c1.exec ⟨sqlSelectAll, []⟩ w1.store).1 = .error e1) :
    ((getAllProductsAlgorithm2 c w).1
        = .ok ((found.filterMap (fun f => f.1.head?)).map Row.toProduct) ∧
      (getAllProductsAlgorithm2 c w).2.sent
        = w.sent ++ ⟨sqlSelectIds, []⟩ :: (ids.take (found.length + 1)).map fetchOf ∧
      (getAllProductsAlgorithm2 c w).2.cerr
        = w.cerr ++ ["Error retrieving products (Algorithm 2): " ++ e]) ∧
    ((getAllProductsAlgorithm2 c2 w2).1 = .ok [] ∧
      (getAllProductsAlgorithm2 c2 w2).2.sent = w2.sent ++ [⟨sqlSelectIds, []⟩] ∧
      (getAllProductsAlgorithm2 c2 w2).2.cerr
        = w2.cerr ++ ["Error retrieving products (Algorithm 2): " ++ e2]) ∧
    ((getAllProductsAlgorithm1 c1 w1).1 = .ok [] ∧
      (getAllProductsAlgorithm1 c1 w1).2.sent = w1.sent ++ [⟨sqlSelectAll, []⟩] ∧
      (getAllProductsAlgorithm1 c1 w1).2.cerr
        = w1.cerr ++ ["Error retrieving products (Algorithm 1): " ++ e1]) := by
  refine ⟨?_, ?_, ?_⟩
  · simp only [replies, List.cons.injEq] at hreplies
    obtain ⟨h1, h2⟩ := hreplies
    have h := fetchEach_replies_error c e ids found []
      { store := (c.exec ⟨sqlSelectIds, []⟩ w.store).2,
        sent := w.sent ++ [⟨sqlSelectIds, []⟩], cerr := w.cerr } hk h2
    simp only [getAllProductsAlgorithm2, getAllProductsAlgorithm2_try, transact, h1, h]
    simp [Session.log]
  · simp [getAllProductsAlgorithm2, getAllProductsAlgorithm2_try, transact, henum, Session.log]
  · simp [getAllProductsAlgorithm1, getAllProductsAlgorithm1_try, transact, hall, Session.log]

theorem retrieval_returns_accumulated_on_failure_witness :
    ([([widget], 1), ([gadget], 1)] : List (List Row × Nat)).length
        < ([1, 2, 3] : List Int).length ∧
    replies (failing store) (⟨sqlSelectIds, []⟩ :: ([1, 2, 3].take 3).map fetchOf)
        (Session.start (⟨[widget, gadget, gizmo], 4⟩, [false, false, false, true])).store
      = .ok ⟨[1, 2, 3].map idRow, 3⟩ ::
          ([([widget], 1), ([gadget], 1)].map (fun f => .ok (resultOf f))
            ++ [.error "server closed the connection unexpectedly"]) ∧
    ((failing store).exec ⟨sqlSelectIds, []⟩
        (Session.start (⟨[widget, gadget, gizmo], 4⟩, [true])).store).1
      = .error "server closed the connection unexpectedly" ∧
    ((failing store).exec ⟨sqlSelectAll, []⟩
        (Session.start (⟨[widget, gadget, gizmo], 4⟩, [true])).store).1
      = .error "server closed the connection unexpectedly" ∧
    (getAllProductsAlgorithm2 (failing store)
        (Session.start (⟨[widget, gadget, gizmo], 4⟩, [false, false, false, true]))).1
      = .ok [widget.toProduct, gadget.toProduct] ∧
    (getAllProductsAlgorithm2 (failing store)
        (Session.start (⟨[widget, gadget, gizmo], 4⟩, [true]))).1 = .ok [] ∧
    (getAllProductsAlgorithm1 (failing store)
        (Session.start (⟨[widget, gadget, gizmo], 4⟩, [true]))).1 = .ok [] :=
  have h := retrieval_returns_accumulated_on_failure
    (failing store)
    (Session.start (⟨[widget, gadget, gizmo], 4⟩, [false, false, false, true]))
    [1, 2, 3] 3 [([widget], 1), ([gadget], 1)] "server closed the connection unexpectedly"
    (by decide) rfl
    (failing store) (Session.start (⟨[widget, gadget, gizmo], 4⟩, [true]))
    "server closed the connection unexpectedly" rfl
    (failing store) (Session.start (⟨[widget, gadget, gizmo], 4⟩, [true]))
    "server closed the connection unexpectedly" rfl
  ⟨by decide, rfl, rfl, rfl, h.1.1, h.2.1.1, h.2.2.1⟩

theorem getProductById_store (id : Int) (w : Session Table) :
    getProductById store id w
      = (.ok ((whereProductId id w.store.rows).head?.map Row.toProduct),
          { w with sent := w.sent ++ [fetchOf id] }) := by
  have hf : (⟨sqlSelectById, [.int id]⟩ : Statement) = fetchOf id := rfl
  simp only [getProductById, getProductById_try, transact, store, hf, execute_fetchOf]
  cases h : whereProductId id w.store.rows with
  | nil => simp [resultOf]
  | cons r rs => simp [resultOf, productOfRow_values]

theorem whereProductId_eq_nil {id : Int} {rows : List Row}
    (habsent : ∀ r ∈ rows, r.product_id ≠ id) : whereProductId id rows = [] := by
  simp only [whereProductId, List.filter_eq_nil_iff, decide_eq_true_eq]
  exact habsent

theorem whereProductId_append (id : Int) (l1 l2 : List Row) :
    whereProductId id (l1 ++ l2) = whereProductId id l1 ++ whereProductId id l2 := by
  simp [whereProductId]

/-- C5: on a store that meets no failure of its own, whenever addProduct(name, price,
quantity) returns true, the new row is appended under the next identity value, an id no row
had before, and getProductById on that id returns the Product with this id and the inserted
name, price and quantity. -/
theorem addProduct_then_getProductById (name : String) (price : Rat) (quantity : Int)
    (w : Session Table)
    (hadded : (addProduct store name price quantity w).1 = .ok true) :
    (addProduct store name price quantity w).2.store.rows
      = w.store.rows ++ [⟨w.store.next_id, name, price, quantity⟩] ∧
    (∀ r ∈ w.store.rows, r.product_id ≠ w.store.next_id) ∧
    (getProductById store w.store.next_id (addProduct store name price quantity w).2).1
      = .ok (some ⟨w.store.next_id, name, price, quantity⟩) := by
  simp only [addProduct, addProduct_try, transact, store, execute_insert] at hadded ⊢
  by_cases htaken : w.store.rows.any (fun r => decide (r.product_id = w.store.next_id)) = true
  · simp [htaken] at hadded
  · simp only [htaken, Bool.false_eq_true, ↓reduceIte]
    have hfresh : ∀ r ∈ w.store.rows, r.product_id ≠ w.store.next_id := by
      intro r hr hEq
      exact htaken (List.any_eq_true.mpr ⟨r, hr, by simpa using hEq⟩)
    refine ⟨trivial, hfresh, ?_⟩
    have hstore := getProductById_store w.store.next_id
      { store := { rows := w.store.rows ++ [⟨w.store.next_id, name, price, quantity⟩],
                   next_id := w.store.next_id + 1 },
        sent := w.sent ++ [⟨sqlInsert, [.text name, .real price, .int quantity]⟩],
        cerr := w.cerr }
    simp only [store] at hstore
    rw [hstore]
    rw [whereProductId_append, whereProductId_eq_nil hfresh]
    simp [whereProductId, Row.toProduct]

theorem addProduct_then_getProductById_witness :
    (addProduct store "Widget" (999 / 100) 10 (Session.start ⟨[], 1⟩)).1 = .ok true ∧
    (getProductById store 1
        (addProduct store "Widget" (999 / 100) 10 (Session.start ⟨[], 1⟩)).2).1
      = .ok (some ⟨1, "Widget", 999 / 100, 10⟩) :=
  ⟨rfl, (addProduct_then_getProductById "Widget" (999 / 100) 10
    (Session.start ⟨[], 1⟩) rfl).2.2⟩

theorem updateProduct_store (id : Int) (name : String) (price : Rat) (quantity : Int)
    (w : Session Table) :
    updateProduct store id name price quantity w
      = (.ok (decide ((whereProductId id w.store.rows).length > 0)),
          { store := { w.store with rows := w.store.rows.map (fun r =>
                if r.product_id = id then ⟨id, name, price, quantity⟩ else r) },
            sent := w.sent
              ++ [⟨sqlUpdate, [.text name, .real price, .int quantity, .int id]⟩],
            cerr := w.cerr }) := by
  simp [updateProduct, updateProduct_try, transact, store, execute_update]

theorem deleteProduct_store (id : Int) (w : Session Table) :
    deleteProduct store id w
      = (.ok (decide ((whereProductId id w.store.rows).length > 0)),
          { store := { w.store with
                rows := w.store.rows.filter (fun r => decide (r.product_id ≠ id)) },
            sent := w.sent ++ [⟨sqlDelete, [.int id]⟩],
            cerr := w.cerr }) := by
  simp [deleteProduct, deleteProduct_try, transact, store, execute_delete]

theorem whereProductId_update (id : Int) (new : Row) (hnew : new.product_id = id)
    (rows : List Row) :
    whereProductId id (rows.map (fun r => if r.product_id = id then new else r))
      = (whereProductId id rows).map (fun _ => new) := by
  induction rows with
  | nil => rfl
  | cons a l ih =>
    simp only [whereProductId] at ih ⊢
    by_cases ha : a.product_id = id
    · simp [ha, hnew, ih]
    · simp [ha, ih]

theorem whereProductId_ne_nil {id : Int} {rows : List Row}
    (hpresent : ∃ r ∈ rows, r.product_id = id) : whereProductId id rows ≠ [] := by
  obtain ⟨r, hr, hid⟩ := hpresent
  intro hnil
  have : r ∈ whereProductId id rows := by
    simp [whereProductId, hr, hid]
  rw [hnil] at this
  simp at this

/-- C6: on a store that meets no failure, for every id present in the table and every name,
price and quantity, updateProduct returns true, and getProductById on the same id right after
it returns the Product with that id and exactly the new name, price and quantity. -/
theorem updateProduct_then_getProductById (id : Int) (name : String) (price : Rat)
    (quantity : Int) (w : Session Table)
    (hpresent : ∃ r ∈ w.store.rows, r.product_id = id) :
    (updateProduct store id name price quantity w).1 = .ok true ∧
    (getProductById store id (updateProduct store id name price quantity w).2).1
      = .ok (some ⟨id, name, price, quantity⟩) := by
  have hne := whereProductId_ne_nil hpresent
  rw [updateProduct_store, getProductById_store]
  constructor
  · simp [List.length_pos, hne]
  · simp only [whereProductId_update id ⟨id, name, price, quantity⟩ rfl]
    cases h : whereProductId id w.store.rows with
    | nil => exact absurd h hne
    | cons r rs => simp [Row.toProduct]

theorem updateProduct_then_getProductById_witness :
    (∃ r ∈ (Session.start (⟨[widget, gadget], 3⟩ : Table)).store.rows, r.product_id = 1) ∧
    (updateProduct store 1 "Widget2" (850 / 100) 5 (Session.start ⟨[widget, gadget], 3⟩)).1
      = .ok true ∧
    (getProductById store 1
        (updateProduct store 1 "Widget2" (850 / 100) 5
          (Session.start ⟨[widget, gadget], 3⟩)).2).1
      = .ok (some ⟨1, "Widget2", 850 / 100, 5⟩) :=
  ⟨⟨widget, by simp [Session.start], rfl⟩,
    updateProduct_then_getProductById 1 "Widget2" (850 / 100) 5
      (Session.start ⟨[widget, gadget], 3⟩) ⟨widget, by simp [Session.start], rfl⟩⟩

/-- C7: on a store that meets no failure, for every id that no row of the table has,
getProductById returns absent and updateProduct and deleteProduct return false, the
affected-row count of their statements being 0; and on any connection updateProduct and
deleteProduct return true only when the statement succeeded with an affected-row count of
at least 1. -/
theorem absent_id_operations_fail (id : Int) (name : String) (price : Rat) (quantity : Int)
    (w : Session Table)
    (habsent : ∀ r ∈ w.store.rows, r.product_id ≠ id) :
    (getProductById store id w).1 = .ok none ∧
    (updateProduct store id name price quantity w).1 = .ok false ∧
    (deleteProduct store id w).1 = .ok false ∧
    (store.exec ⟨sqlUpdate, [.text name, .real price, .int quantity, .int id]⟩ w.store).1
      = .ok ⟨[], 0⟩ ∧
    (store.exec ⟨sqlDelete, [.int id]⟩ w.store).1 = .ok ⟨[], 0⟩ ∧
    (∀ (σ : Type) (c : Connection σ) (v : Session σ),
      (updateProduct c id name price quantity v).1 = .ok true →
        ∃ res, (c.exec ⟨sqlUpdate, [.text name, .real price, .int quantity, .int id]⟩
            v.store).1 = .ok res ∧ 1 ≤ res.affected_rows) ∧
    (∀ (σ : Type) (c : Connection σ) (v : Session σ),
      (deleteProduct c id v).1 = .ok true →
        ∃ res, (c.exec ⟨sqlDelete, [.int id]⟩ v.store).1 = .ok res ∧
          1 ≤ res.affected_rows) := by
  have hnil := whereProductId_eq_nil habsent
  refine ⟨?_, ?_, ?_, ?_, ?_, ?_, ?_⟩
  · rw [getProductById_store, hnil]; rfl
  · rw [updateProduct_store, hnil]; rfl
  · rw [deleteProduct_store, hnil]; rfl
  · simp [store, execute_update, hnil]
  · simp [store, execute_delete, hnil]
  · intro σ c v h
    simp only [updateProduct, updateProduct_try, transact] at h
    cases hx : (c.exec ⟨sqlUpdate, [.text name, .real price, .int quantity, .int id]⟩
        v.store).1 with
    | error e => simp [hx] at h
    | ok res =>
      refine ⟨res, rfl, ?_⟩
      simp [hx] at h
      omega
  · intro σ c v h
    simp only [deleteProduct, deleteProduct_try, transact] at h
    cases hx : (c.exec ⟨sqlDelete, [.int id]⟩ v.store).1 with
    | error e => simp [hx] at h
    | ok res =>
      refine ⟨res, rfl, ?_⟩
      simp [hx] at h
      omega

theorem absent_id_operations_fail_witness :
    (∀ r ∈ (Session.start (⟨[widget, gadget], 3⟩ : Table)).store.rows, r.product_id ≠ 7) ∧
    (getProductById store 7 (Session.start ⟨[widget, gadget], 3⟩)).1 = .ok none ∧
    (updateProduct store 7 "Widget2" (850 / 100) 5 (Session.start ⟨[widget, gadget], 3⟩)).1
      = .ok false ∧
    (deleteProduct store 7 (Session.start ⟨[widget, gadget], 3⟩)).1 = .ok false :=
  have habsent : ∀ r ∈ (Session.start (⟨[widget, gadget], 3⟩ : Table)).store.rows,
      r.product_id ≠ 7 := by
    intro r hr
    simp only [Session.start, List.mem_cons, List.mem_singleton, List.not_mem_nil,
      or_false] at hr
    rcases hr with rfl | rfl <;> decide
  have h := absent_id_operations_fail 7 "Widget2" (850 / 100) 5
    (Session.start ⟨[widget, gadget], 3⟩) habsent
  ⟨habsent, h.1, h.2.1, h.2.2.1⟩

theorem failing_exec_nil {σ : Type} (c : Connection σ) (stmt : Statement) (s : σ) :
    (failing c).exec stmt (s, []) = ((c.exec stmt s).1, ((c.exec stmt s).2, [])) := rfl

theorem failing_exec_false {σ : Type} (c : Connection σ) (stmt : Statement) (s : σ)
    (later : List Bool) :
    (failing c).exec stmt (s, false :: later)
      = ((c.exec stmt s).1, ((c.exec stmt s).2, later)) := rfl

theorem failing_exec_true {σ : Type} (c : Connection σ) (stmt : Statement) (s : σ)
    (later : List Bool) :
    (failing c).exec stmt (s, true :: later)
      = (.error "server closed the connection unexpectedly", (s, later)) := rfl

theorem deleteProduct_failing_gone (id : Int) (t : Table) (flags : List Bool)
    (sent : List Statement) (cerr : List String)
    (hgone : ∀ r ∈ t.rows, r.product_id ≠ id) :
    (deleteProduct (failing store) id ⟨(t, flags), sent, cerr⟩).1 = .ok false := by
  have hnil := whereProductId_eq_nil hgone
  simp only [deleteProduct, deleteProduct_try, transact]
  match flags with
  | [] => simp [failing_exec_nil, store, execute_delete, hnil]
  | false :: later => simp [failing_exec_false, store, execute_delete, hnil]
  | true :: later => simp [failing_exec_true]

/-- C8: for every table state and every id, the second of two deleteProduct(id) calls in a
row returns false, because after the first call no row has that id: on a store that meets no
failure, and also on a store where the first call meets no failure and the second call may
meet one. -/
theorem deleteProduct_twice (id : Int) (w : Session Table) :
    (deleteProduct store id (deleteProduct store id w).2).1 = .ok false ∧
    (∀ r ∈ (deleteProduct store id w).2.store.rows, r.product_id ≠ id) ∧
    (∀ later : List Bool,
      (deleteProduct (failing store) id
        (deleteProduct (failing store) id
          ⟨(w.store, false :: later), w.sent, w.cerr⟩).2).1 = .ok false) := by
  have hgone : ∀ r ∈ w.store.rows.filter (fun r => decide (r.product_id ≠ id)),
      r.product_id ≠ id := by
    intro r hr
    simpa using (List.mem_filter.mp hr).2
  refine ⟨?_, ?_, ?_⟩
  · rw [deleteProduct_store, deleteProduct_store]
    simp only [whereProductId_eq_nil hgone]
    rfl
  · rw [deleteProduct_store]
    exact hgone
  · intro later
    have hfirst : (deleteProduct (failing store) id
          ⟨(w.store, false :: later), w.sent, w.cerr⟩).2
        = ⟨({ w.store with
              rows := w.store.rows.filter (fun r => decide (r.product_id ≠ id)) }, later),
            w.sent ++ [⟨sqlDelete, [.int id]⟩], w.cerr⟩ := by
      simp [deleteProduct, deleteProduct_try, transact, failing_exec_false, store,
        execute_delete]
    rw [hfirst]
    exact deleteProduct_failing_gone id _ later _ _ hgone

theorem getAllProductsAlgorithm1_returns {σ : Type} (c : Connection σ) (w : Session σ) :
    ∃ products, (getAllProductsAlgorithm1 c w).1 = .ok products := by
  unfold getAllProductsAlgorithm1
  rcases getAllProductsAlgorithm1_try c [] w with ⟨r | r, products, w1⟩ <;> exact ⟨_, rfl⟩

theorem getAllProductsAlgorithm2_returns {σ : Type} (c : Connection σ) (w : Session σ) :
    ∃ products, (getAllProductsAlgorithm2 c w).1 = .ok products := by
  unfold getAllProductsAlgorithm2
  rcases getAllProductsAlgorithm2_try c [] w with ⟨r | r, products, w1⟩ <;> exact ⟨_, rfl⟩

/-- C9: on every connection, whatever it answers, no operation of the service lets an
exception out: each returns normally a value of its return type, and when its statement
fails with `e` addProduct, updateProduct and deleteProduct return false and getProductById
returns absent, each after logging its diagnostic with `e`; the two retrieval strategies
return a sequence. -/
theorem storage_failure_never_propagates {σ : Type} (c : Connection σ) (w : Session σ)
    (productId : Int) (name : String) (price : Rat) (quantity : Int) :
    ((∃ b, (addProduct c name price quantity w).1 = .ok b) ∧
      ∀ e, (c.exec ⟨sqlInsert, [.text name, .real price, .int quantity]⟩ w.store).1 = .error e →
        (addProduct c name price quantity w).1 = .ok false ∧
        (addProduct c name price quantity w).2.cerr
          = w.cerr ++ ["Error adding product: " ++ e]) ∧
    ((∃ r, (getProductById c productId w).1 = .ok r) ∧
      ∀ e, (c.exec ⟨sqlSelectById, [.int productId]⟩ w.store).1 = .error e →
        (getProductById c productId w).1 = .ok none ∧
        (getProductById c productId w).2.cerr
          = w.cerr ++ ["Error retrieving product: " ++ e]) ∧
    ((∃ b, (updateProduct c productId name price quantity w).1 = .ok b) ∧
      ∀ e, (c.exec ⟨sqlUpdate, [.text name, .real price, .int quantity, .int productId]⟩
          w.store).1 = .error e →
        (updateProduct c productId name price quantity w).1 = .ok false ∧
        (updateProduct c productId name price quantity w).2.cerr
          = w.cerr ++ ["Error updating product: " ++ e]) ∧
    ((∃ b, (deleteProduct c productId w).1 = .ok b) ∧
      ∀ e, (c.exec ⟨sqlDelete, [.int productId]⟩ w.store).1 = .error e →
        (deleteProduct c productId w).1 = .ok false ∧
        (deleteProduct c productId w).2.cerr
          = w.cerr ++ ["Error deleting product: " ++ e]) ∧
    (∃ products, (getAllProductsAlgorithm1 c w).1 = .ok products) ∧
    (∃ products, (getAllProductsAlgorithm2 c w).1 = .ok products) := by
  refine ⟨⟨?_, ?_⟩, ⟨?_, ?_⟩, ⟨?_, ?_⟩, ⟨?_, ?_⟩, getAllProductsAlgorithm1_returns c w,
    getAllProductsAlgorithm2_returns c w⟩
  · unfold addProduct
    rcases addProduct_try c name price quantity w with ⟨r | r, w1⟩ <;> exact ⟨_, rfl⟩
  · intro e he
    simp [addProduct, addProduct_try, transact, he, Session.log]
  · unfold getProductById
    rcases getProductById_try c productId w with ⟨r | r, w1⟩ <;> exact ⟨_, rfl⟩
  · intro e he
    simp [getProductById, getProductById_try, transact, he, Session.log]
  · unfold updateProduct
    rcases updateProduct_try c productId name price quantity w with ⟨r | r, w1⟩ <;>
      exact ⟨_, rfl⟩
  · intro e he
    simp [updateProduct, updateProduct_try, transact, he, Session.log]
  · unfold deleteProduct
    rcases deleteProduct_try c productId w with ⟨r | r, w1⟩ <;> exact ⟨_, rfl⟩
  · intro e he
    simp [deleteProduct, deleteProduct_try, transact, he, Session.log]

theorem storage_failure_never_propagates_witness :
    ((failing store).exec ⟨sqlInsert, [.text "Widget", .real (999 / 100), .int 10]⟩
        (Session.start (⟨[widget], 2⟩, [true])).store).1
      = .error "server closed the connection unexpectedly" ∧
    (addProduct (failing store) "Widget" (999 / 100) 10
        (Session.start (⟨[widget], 2⟩, [true]))).1 = .ok false ∧
    ((failing store).exec ⟨sqlSelectById, [.int 1]⟩
        (Session.start (⟨[widget], 2⟩, [true])).store).1
      = .error "server closed the connection unexpectedly" ∧
    (getProductById (failing store) 1 (Session.start (⟨[widget], 2⟩, [true]))).1 = .ok none ∧
    (updateProduct (failing store) 1 "Widget" (999 / 100) 10
        (Session.start (⟨[widget], 2⟩, [true]))).1 = .ok false ∧
    (deleteProduct (failing store) 1 (Session.start (⟨[widget], 2⟩, [true]))).1 = .ok false :=
  have h := storage_failure_never_propagates (failing store)
    (Session.start (⟨[widget], 2⟩, [true])) 1 "Widget" (999 / 100) 10
  ⟨rfl, (h.1.2 _ rfl).1, rfl, (h.2.1.2 _ rfl).1, (h.2.2.1.2 _ rfl).1, (h.2.2.2.1.2 _ rfl).1⟩

/-- C10: on a store that meets no failure, getAllProductsAlgorithm1 sends exactly one
statement, the read of all rows, and getAllProductsAlgorithm2 on a table of n rows sends
exactly n+1 statements: the id enumeration, then one per-id read for each enumerated id, in
enumeration order.  Both return normally, log nothing and leave the table as it was. -/
theorem retrieval_statement_counts (w : Session Table) :
    ((getAllProductsAlgorithm1 store w).2.sent = w.sent ++ [⟨sqlSelectAll, []⟩] ∧
      (getAllProductsAlgorithm1 store w).2.sent.length = w.sent.length + 1) ∧
    ((getAllProductsAlgorithm2 store w).2.sent
        = w.sent ++ ⟨sqlSelectIds, []⟩ :: w.store.rows.map (fun r => fetchOf r.product_id) ∧
      (getAllProductsAlgorithm2 store w).2.sent.length
        = w.sent.length + (w.store.rows.length + 1)) ∧
    ((getAllProductsAlgorithm1 store w).2.store = w.store ∧
      (getAllProductsAlgorithm2 store w).2.store = w.store) ∧
    ((getAllProductsAlgorithm1 store w).2.cerr = w.cerr ∧
      (getAllProductsAlgorithm2 store w).2.cerr = w.cerr) := by
  rw [algorithm1_store, algorithm2_store]
  simp

theorem count_eq_zero_iff (config : Config) (key : String) :
    config.count key = 0 ↔ config.lookup key = none := by
  unfold Config.count
  cases config.lookup key <;> simp

theorem appendEntry_absent {config : Config} {key : String} (habsent : config.count key = 0)
    (label connStr : String) : appendEntry config key label connStr = .ok connStr := by
  simp [appendEntry, habsent]

theorem appendEntry_grows (config : Config) (key label connStr : String) :
    ∃ next, appendEntry config key label connStr = .ok next ∧
      connStr.length ≤ next.length ∧
      (config.count key ≠ 0 → connStr.length + label.length + 1 ≤ next.length) := by
  unfold appendEntry Config.count Config.atKey
  cases config.lookup key with
  | none => exact ⟨connStr, by simp, le_refl _, by simp⟩
  | some value =>
    refine ⟨connStr ++ (label ++ value ++ " "), by simp, ?_, ?_⟩
    · simp [String.length_append]
    · intro _
      simp only [String.length_append]
      have : (" " : String).length = 1 := rfl
      omega

theorem dropTrailingSpace_length (connStr : String) :
    connStr.length - 1 ≤ (dropTrailingSpace connStr).length := by
  unfold dropTrailingSpace
  split
  · show connStr.data.length - 1 ≤ connStr.data.dropLast.length
    rw [List.length_dropLast]
  · omega

theorem buildConnectionString_of_none {config : Config}
    (hnone : ∀ key ∈ connectionKeys, config.count key = 0) :
    buildConnectionString config = .ok "" := by
  have h1 := hnone "dbname" (by simp [connectionKeys])
  have h2 := hnone "user" (by simp [connectionKeys])
  have h3 := hnone "password" (by simp [connectionKeys])
  have h4 := hnone "host" (by simp [connectionKeys])
  have h5 := hnone "port" (by simp [connectionKeys])
  simp only [buildConnectionString, appendEntry_absent h1, appendEntry_absent h2,
    appendEntry_absent h3, appendEntry_absent h4, appendEntry_absent h5, bind, Except.bind]
  rfl

theorem buildConnectionString_of_some {config : Config}
    (hsome : ∃ key ∈ connectionKeys, config.count key ≠ 0) :
    ∃ connStr, buildConnectionString config = .ok connStr ∧ connStr ≠ "" := by
  obtain ⟨s1, e1, l1, g1⟩ := appendEntry_grows config "dbname" "dbname=" ""
  obtain ⟨s2, e2, l2, g2⟩ := appendEntry_grows config "user" "user=" s1
  obtain ⟨s3, e3, l3, g3⟩ := appendEntry_grows config "password" "password=" s2
  obtain ⟨s4, e4, l4, g4⟩ := appendEntry_grows config "host" "host=" s3
  obtain ⟨s5, e5, l5, g5⟩ := appendEntry_grows config "port" "port=" s4
  have hbuild : buildConnectionString config = .ok (dropTrailingSpace s5) := by
    simp only [buildConnectionString, e1, e2, e3, e4, e5, bind, Except.bind]
    rfl
  refine ⟨_, hbuild, ?_⟩
  have n1 : ("dbname=" : String).length = 7 := rfl
  have n2 : ("user=" : String).length = 5 := rfl
  have n3 : ("password=" : String).length = 9 := rfl
  have n4 : ("host=" : String).length = 5 := rfl
  have n5 : ("port=" : String).length = 5 := rfl
  have hlen : 2 ≤ s5.length := by
    obtain ⟨key, hkey, hcount⟩ := hsome
    simp only [connectionKeys, List.mem_cons, List.mem_singleton, List.not_mem_nil,
      or_false] at hkey
    rcases hkey with rfl | rfl | rfl | rfl | rfl
    · have := g1 hcount; omega
    · have := g2 hcount; omega
    · have := g3 hcount; omega
    · have := g4 hcount; omega
    · have := g5 hcount; omega
  have hdrop := dropTrailingSpace_length s5
  intro hempty
  rw [hempty] at hdrop
  have : ("" : String).length = 0 := rfl
  omega

/-- C12: for every configuration map that has none of the keys dbname, user, password, host
and port, buildConnectionString returns the empty string, and the DatabaseManager constructor
that loaded this map throws "Failed to build connection string from config." (logged and
rethrown) without having handed any connection string to `pqxx::connection`; for every map
that has at least one of the five keys, buildConnectionString returns a non-empty string,
which the constructor that loaded this map hands to `pqxx::connection`. -/
theorem connection_string_empty_iff_no_key (config : Config)
    (hnone : ∀ key ∈ connectionKeys, config.count key = 0)
    (configFilePath : String) (file : Option String) (connect : String → Except String Bool)
    (u : Startup) (hloaded : loadConfig configFilePath file = .ok config)
    (other : Config) (hsome : ∃ key ∈ connectionKeys, other.count key ≠ 0) :
    buildConnectionString config = .ok "" ∧
    (DatabaseManager configFilePath file connect u).1
      = .error "Failed to build connection string from config." ∧
    (DatabaseManager configFilePath file connect u).2.attempts = u.attempts ∧
    (DatabaseManager configFilePath file connect u).2.cerr
      = u.cerr ++ ["Database initialization error: "
          ++ "Failed to build connection string from config."] ∧
    (∃ connStr, buildConnectionString other = .ok connStr ∧ connStr ≠ "" ∧
      ∀ (path : String) (otherFile : Option String) (server : String → Except String Bool)
        (v : Startup), loadConfig path otherFile = .ok other →
        (DatabaseManager path otherFile server v).2.attempts = v.attempts ++ [connStr]) := by
  have hbuild := buildConnectionString_of_none hnone
  refine ⟨hbuild, ?_, ?_, ?_, ?_⟩
  · simp [DatabaseManager, DatabaseManager_try, hloaded, hbuild]
  · simp [DatabaseManager, DatabaseManager_try, hloaded, hbuild]
  · simp [DatabaseManager, DatabaseManager_try, hloaded, hbuild]
  · obtain ⟨connStr, hother, hne⟩ := buildConnectionString_of_some hsome
    refine ⟨connStr, hother, hne, ?_⟩
    intro path otherFile server v hload
    simp only [DatabaseManager, DatabaseManager_try, hload, hother, hne, if_false]
    cases server connStr with
    | error e => rfl
    | ok isOpen => cases isOpen <;> rfl

theorem connection_string_empty_iff_no_key_witness :
    (∀ key ∈ connectionKeys, Config.count [("timeout", "30")] key = 0) ∧
    loadConfig "db_config.ini" (some "# no connection parameter\ntimeout = 30\n")
      = .ok [("timeout", "30")] ∧
    (∃ key ∈ connectionKeys, Config.count [("host", "localhost")] key ≠ 0) ∧
    buildConnectionString [("timeout", "30")] = .ok "" ∧
    (DatabaseManager "db_config.ini" (some "# no connection parameter\ntimeout = 30\n")
        (fun _ => .ok true) ⟨[], []⟩).1
      = .error "Failed to build connection string from config." ∧
    (DatabaseManager "db_config.ini" (some "# no connection parameter\ntimeout = 30\n")
        (fun _ => .ok true) ⟨[], []⟩).2.attempts = [] :=
  have hnone : ∀ key ∈ connectionKeys, Config.count [("timeout", "30")] key = 0 := by decide
  have hsome : ∃ key ∈ connectionKeys, Config.count [("host", "localhost")] key ≠ 0 :=
    ⟨"host", by decide, by decide⟩
  have h := connection_string_empty_iff_no_key [("timeout", "30")] hnone "db_config.ini"
    (some "# no connection parameter\ntimeout = 30\n") (fun _ => .ok true) ⟨[], []⟩ rfl
    [("host", "localhost")] hsome
  ⟨hnone, rfl, hsome, h.1, h.2.1, h.2.2.1⟩

theorem addProduct_sent {σ : Type} (c : Connection σ) (name : String) (price : Rat)
    (quantity : Int) (w : Session σ) :
    (addProduct c name price quantity w).2.sent
      = w.sent ++ [⟨sqlInsert, [.text name, .real price, .int quantity]⟩] := by
  simp only [addProduct, addProduct_try, transact]
  cases (c.exec ⟨sqlInsert, [.text name, .real price, .int quantity]⟩ w.store).1 <;> rfl

theorem getProductById_sent {σ : Type} (c : Connection σ) (productId : Int) (w : Session σ) :
    (getProductById c productId w).2.sent = w.sent ++ [⟨sqlSelectById, [.int productId]⟩] := by
  simp only [getProductById, getProductById_try, transact]
  cases (c.exec ⟨sqlSelectById, [.int productId]⟩ w.store).1 with
  | error e => rfl
  | ok res =>
    cases hrows : res.rows with
    | nil => simp [hrows, Session.log]
    | cons row rest =>
      cases hrow : productOfRow row <;> simp [hrows, hrow, Session.log]

theorem updateProduct_sent {σ : Type} (c : Connection σ) (productId : Int) (name : String)
    (price : Rat) (quantity : Int) (w : Session σ) :
    (updateProduct c productId name price quantity w).2.sent
      = w.sent ++ [⟨sqlUpdate, [.text name, .real price, .int quantity, .int productId]⟩] := by
  simp only [updateProduct, updateProduct_try, transact]
  cases (c.exec ⟨sqlUpdate, [.text name, .real price, .int quantity, .int productId]⟩
    w.store).1 <;> rfl

theorem deleteProduct_sent {σ : Type} (c : Connection σ) (productId : Int) (w : Session σ) :
    (deleteProduct c productId w).2.sent = w.sent ++ [⟨sqlDelete, [.int productId]⟩] := by
  simp only [deleteProduct, deleteProduct_try, transact]
  cases (c.exec ⟨sqlDelete, [.int productId]⟩ w.store).1 <;> rfl

/-- C11: on every connection, whatever it answers, addProduct, getProductById, updateProduct
and deleteProduct each send exactly one statement, whose text is the fixed template of the
operation (the INSERT, SELECT ... WHERE, UPDATE and DELETE texts with placeholders) and whose
bound parameters are the argument values in placeholder order.  Hence for any two tuples of
argument values the texts sent are the same: the values travel as parameters only and never
enter the text, even for a name that holds SQL. -/
theorem statements_are_fixed_templates {σ σ2 : Type} (c : Connection σ) (w : Session σ)
    (c2 : Connection σ2) (w2 : Session σ2)
    (productId productId2 : Int) (name name2 : String) (price price2 : Rat)
    (quantity quantity2 : Int) :
    ((addProduct c name price quantity w).2.sent
        = w.sent ++ [⟨sqlInsert, [.text name, .real price, .int quantity]⟩] ∧
      (getProductById c productId w).2.sent
        = w.sent ++ [⟨sqlSelectById, [.int productId]⟩] ∧
      (updateProduct c productId name price quantity w).2.sent
        = w.sent ++ [⟨sqlUpdate, [.text name, .real price, .int quantity, .int productId]⟩] ∧
      (deleteProduct c productId w).2.sent = w.sent ++ [⟨sqlDelete, [.int productId]⟩]) ∧
    ((((addProduct c name price quantity w).2.sent.drop w.sent.length).map Statement.text
        = ((addProduct c2 name2 price2 quantity2 w2).2.sent.drop w2.sent.length).map
            Statement.text) ∧
      (((getProductById c productId w).2.sent.drop w.sent.length).map Statement.text
        = ((getProductById c2 productId2 w2).2.sent.drop w2.sent.length).map Statement.text) ∧
      (((updateProduct c productId name price quantity w).2.sent.drop w.sent.length).map
          Statement.text
        = ((updateProduct c2 productId2 name2 price2 quantity2 w2).2.sent.drop
            w2.sent.length).map Statement.text) ∧
      (((deleteProduct c productId w).2.sent.drop w.sent.length).map Statement.text
        = ((deleteProduct c2 productId2 w2).2.sent.drop w2.sent.length).map Statement.text)) ∧
    ((addProduct store "Widget); DROP TABLE Products; --" (999 / 100) 10
        (Session.start ⟨[], 1⟩)).2.sent.map Statement.text
      = ["INSERT INTO Products (product_name, price, quantity) VALUES ($1, $2, $3)"]) := by
  refine ⟨⟨addProduct_sent _ _ _ _ _, getProductById_sent _ _ _, updateProduct_sent _ _ _ _ _ _,
    deleteProduct_sent _ _ _⟩, ⟨?_, ?_, ?_, ?_⟩, rfl⟩
  · rw [addProduct_sent, addProduct_sent]; simp
  · rw [getProductById_sent, getProductById_sent]; simp
  · rw [updateProduct_sent, updateProduct_sent]; simp
  · rw [deleteProduct_sent, deleteProduct_sent]; simp

theorem filter_ne_update (id : Int) (new : Row) (hnew : new.product_id = id)
    (rows : List Row) :
    (rows.map (fun r => if r.product_id = id then new else r)).filter
        (fun r => decide (r.product_id ≠ id))
      = rows.filter (fun r => decide (r.product_id ≠ id)) := by
  induction rows with
  | nil => rfl
  | cons a l ih =>
    by_cases ha : a.product_id = id
    · simp only [List.map_cons, ha, if_true, hnew, ne_eq, not_true_eq_false, decide_False,
        Bool.false_eq_true, not_false_eq_true, List.filter_cons_of_neg]
      exact ih
    · simp only [List.map_cons, ha, if_false, ne_eq, not_false_eq_true, decide_True,
        List.filter_cons_of_pos, List.cons.injEq, true_and]
      exact ih

theorem update_of_absent (id : Int) (new : Row) {rows : List Row}
    (habsent : ∀ r ∈ rows, r.product_id ≠ id) :
    rows.map (fun r => if r.product_id = id then new else r) = rows := by
  induction rows with
  | nil => rfl
  | cons a l ih =>
    have ha : a.product_id ≠ id := habsent a (List.mem_cons_self _ _)
    simp [ha, ih (fun r hr => habsent r (List.mem_cons_of_mem _ hr))]

theorem absent_of_whereProductId_nil {id : Int} {rows : List Row}
    (hnil : whereProductId id rows = []) : ∀ r ∈ rows, r.product_id ≠ id := by
  simpa [whereProductId, List.filter_eq_nil_iff] using hnil

theorem addProduct_store (name : String) (price : Rat) (quantity : Int) (w : Session Table) :
    addProduct store name price quantity w
      = if w.store.rows.any (fun r => decide (r.product_id = w.store.next_id)) then
          (.ok false,
            { store := w.store,
              sent := w.sent ++ [⟨sqlInsert, [.text name, .real price, .int quantity]⟩],
              cerr := w.cerr ++ ["Error adding product: "
                ++ "duplicate key value violates unique constraint"] })
        else
          (.ok true,
            { store := { rows := w.store.rows ++ [⟨w.store.next_id, name, price, quantity⟩],
                         next_id := w.store.next_id + 1 },
              sent := w.sent ++ [⟨sqlInsert, [.text name, .real price, .int quantity]⟩],
              cerr := w.cerr }) := by
  simp only [addProduct, addProduct_try, transact, store, execute_insert]
  by_cases htaken : w.store.rows.any (fun r => decide (r.product_id = w.store.next_id)) = true
  · simp [htaken, Session.log]
  · simp [htaken]

/-- C13: on a store that meets no failure, for every table state and every id, updateProduct
keeps the number and positions of the rows and leaves every row with another id as it was,
deleteProduct removes the rows with the id and leaves the rows with another id as they were,
in their order, and addProduct, when it returns true, leaves the rows that existed as they
were and adds exactly one row behind them; when updateProduct or deleteProduct returns false
no row had the id, and whenever one of the three returns false the table is unchanged. -/
theorem operations_frame (id : Int) (name : String) (price : Rat) (quantity : Int)
    (w : Session Table) :
    (((updateProduct store id name price quantity w).2.store.rows.length
          = w.store.rows.length ∧
        (∀ (i : Nat) (r : Row), w.store.rows[i]? = some r → r.product_id ≠ id →
          (updateProduct store id name price quantity w).2.store.rows[i]? = some r) ∧
        (updateProduct store id name price quantity w).2.store.rows.filter
            (fun r => decide (r.product_id ≠ id))
          = w.store.rows.filter (fun r => decide (r.product_id ≠ id))) ∧
      ((updateProduct store id name price quantity w).1 = .ok false →
        (∀ r ∈ w.store.rows, r.product_id ≠ id) ∧
        (updateProduct store id name price quantity w).2.store = w.store)) ∧
    (((deleteProduct store id w).2.store.rows.filter (fun r => decide (r.product_id ≠ id))
          = w.store.rows.filter (fun r => decide (r.product_id ≠ id)) ∧
        (deleteProduct store id w).2.store.rows.Sublist w.store.rows ∧
        (∀ r ∈ (deleteProduct store id w).2.store.rows, r.product_id ≠ id)) ∧
      ((deleteProduct store id w).1 = .ok false →
        (∀ r ∈ w.store.rows, r.product_id ≠ id) ∧
        (deleteProduct store id w).2.store = w.store)) ∧
    (((addProduct store name price quantity w).1 = .ok true →
        ∃ r, (addProduct store name price quantity w).2.store.rows = w.store.rows ++ [r] ∧
          r.product_name = name ∧ r.price = price ∧ r.quantity = quantity) ∧
      ((addProduct store name price quantity w).1 = .ok false →
        (addProduct store name price quantity w).2.store = w.store)) := by
  refine ⟨⟨⟨?_, ?_, ?_⟩, ?_⟩, ⟨⟨?_, ?_, ?_⟩, ?_⟩, ⟨?_, ?_⟩⟩
  · rw [updateProduct_store]; simp
  · intro i r hi hr
    rw [updateProduct_store]
    simp [List.getElem?_map, hi, hr]
  · rw [updateProduct_store]
    exact filter_ne_update id ⟨id, name, price, quantity⟩ rfl _
  · rw [updateProduct_store]
    intro hfalse
    have hnil : whereProductId id w.store.rows = [] := by
      simpa [List.length_eq_zero] using hfalse
    have habsent := absent_of_whereProductId_nil hnil
    refine ⟨habsent, ?_⟩
    simp only [update_of_absent id _ habsent]
  · rw [deleteProduct_store]; simp
  · rw [deleteProduct_store]; exact List.filter_sublist _
  · rw [deleteProduct_store]
    intro r hr
    simpa using (List.mem_filter.mp hr).2
  · rw [deleteProduct_store]
    intro hfalse
    have hnil : whereProductId id w.store.rows = [] := by
      simpa [List.length_eq_zero] using hfalse
    have habsent := absent_of_whereProductId_nil hnil
    refine ⟨habsent, ?_⟩
    have hsame : w.store.rows.filter (fun r => decide (r.product_id ≠ id)) = w.store.rows :=
      List.filter_eq_self.mpr (fun r hr => by simpa using habsent r hr)
    simp only [hsame]
  · rw [addProduct_store]
    split
    · intro h; simp at h
    · intro _; exact ⟨_, rfl, rfl, rfl, rfl⟩
  · rw [addProduct_store]
    split
    · intro _; rfl
    · intro h; simp at h

theorem operations_frame_witness :
    (updateProduct store 7 "Widget2" (850 / 100) 5 (Session.start ⟨[widget, gadget], 3⟩)).1
      = .ok false ∧
    (updateProduct store 7 "Widget2" (850 / 100) 5
        (Session.start ⟨[widget, gadget], 3⟩)).2.store = ⟨[widget, gadget], 3⟩ ∧
    (deleteProduct store 7 (Session.start ⟨[widget, gadget], 3⟩)).1 = .ok false ∧
    (deleteProduct store 7 (Session.start ⟨[widget, gadget], 3⟩)).2.store
      = ⟨[widget, gadget], 3⟩ ∧
    (addProduct store "Gizmo" (425 / 100) 7 (Session.start ⟨[widget, gadget], 3⟩)).1
      = .ok true ∧
    (∃ r, (addProduct store "Gizmo" (425 / 100) 7
          (Session.start ⟨[widget, gadget], 3⟩)).2.store.rows = [widget, gadget] ++ [r] ∧
      r.product_name = "Gizmo" ∧ r.price = 425 / 100 ∧ r.quantity = 7) ∧
    (addProduct store "Gizmo" (425 / 100) 7 (Session.start ⟨[widget, gadget], 2⟩)).1
      = .ok false ∧
    (addProduct store "Gizmo" (425 / 100) 7 (Session.start ⟨[widget, gadget], 2⟩)).2.store
      = ⟨[widget, gadget], 2⟩ :=
  have h := operations_frame 7 "Gizmo" (425 / 100) 7 (Session.start ⟨[widget, gadget], 3⟩)
  have hu := operations_frame 7 "Widget2" (850 / 100) 5 (Session.start ⟨[widget, gadget], 3⟩)
  have hr := operations_frame 7 "Gizmo" (425 / 100) 7 (Session.start ⟨[widget, gadget], 2⟩)
  ⟨rfl, (hu.1.2 rfl).2, rfl, (h.2.1.2 rfl).2, rfl, h.2.2.1 rfl, rfl, hr.2.2.2 rfl⟩

end Inventory
